import Mathlib

/-!
Shallow embedding of the cross-program invocation layer of the raydium-amm
program: src/program/src/invokers.rs together with the instruction entry
point in src/program/src/entrypoint.rs.

Every invoker in the source builds one instruction descriptor, one ordered
account list and one (possibly empty) signer-seed list, and hands them to the
runtime primitive invoke_signed exactly once.  The embedding factors each
Rust invoker into a pure function returning the Invocation it dispatches;
the runtime call itself is modelled by an oracle.

Machine integers are modelled as Nat (u8, u16, u64, u128) and Int (i64);
no operation of this layer performs arithmetic on them, so overflow never
arises.  The Rust NonZeroU64 parameters are modelled as Nat: the nonzero
invariant is enforced by the caller and never consulted by this layer.
-/

/-- Solana public key, modelled as an opaque natural number. -/
abbrev Pubkey := Nat

/-- Account handle as passed into the invokers.  The source only ever reads
the key field of an AccountInfo and moves the handle itself into the
dispatched account list, so the embedding keeps just the key. -/
structure AccountInfo where
  key : Pubkey
  deriving DecidableEq, Repr

/-- Account metadata entry of an instruction descriptor
(solana_program::instruction::AccountMeta). -/
structure AccountMeta where
  pubkey : Pubkey
  is_signer : Bool
  is_writable : Bool
  deriving DecidableEq, Repr

/-- Writable AccountMeta constructor (AccountMeta::new). -/
def AccountMeta.new (pubkey : Pubkey) (signer : Bool) : AccountMeta :=
  ⟨pubkey, signer, true⟩

/-- Read-only AccountMeta constructor (AccountMeta::new_readonly). -/
def AccountMeta.new_readonly (pubkey : Pubkey) (signer : Bool) : AccountMeta :=
  ⟨pubkey, signer, false⟩

/-- Order side (serum_dex::matching::Side). -/
inductive Side where
  | Bid
  | Ask
  deriving DecidableEq, Repr

/-- Order type (serum_dex::matching::OrderType). -/
inductive OrderType where
  | Limit
  | ImmediateOrCancel
  | PostOnly
  deriving DecidableEq, Repr

/-- Self-trade policy (serum_dex::instruction::SelfTradeBehavior). -/
inductive SelfTradeBehavior where
  | DecrementTake
  | CancelProvide
  | AbortTransaction
  deriving DecidableEq, Repr

/-- Authority role selector (spl_token::instruction::AuthorityType). -/
inductive AuthorityType where
  | MintTokens
  | FreezeAccount
  | AccountOwner
  | CloseAccount
  deriving DecidableEq, Repr

/-- Largest value of the Rust i64 type, used by the source as the
never-expire sentinel for max_ts. -/
def i64_MAX : Int := 2 ^ 63 - 1

/-- Order payload (serum_dex::instruction::NewOrderInstructionV3), shared by
the NewOrderV3 and ReplaceOrderByClientId operation codes. -/
structure NewOrderInstructionV3 where
  side : Side
  limit_price : Nat
  max_coin_qty : Nat
  order_type : OrderType
  client_order_id : Nat
  self_trade_behavior : SelfTradeBehavior
  limit : Nat
  max_native_pc_qty_including_fees : Nat
  max_ts : Int
  deriving DecidableEq, Repr

/-- Operation codes of the token-custody collaborator, with the parameters
that enter the encoded instruction data. -/
inductive TokenInstruction where
  | Transfer (amount : Nat)
  | Burn (amount : Nat)
  | MintTo (amount : Nat)
  | CloseAccount
  | SetAuthority (authority_type : AuthorityType) (new_authority : Option Pubkey)
  deriving DecidableEq, Repr

/-- Operation codes of the order-book venue collaborator
(serum_dex::instruction::MarketInstruction), with their payloads. -/
inductive MarketInstruction where
  | InitOpenOrders
  | CloseOpenOrders
  | NewOrderV3 (v3 : NewOrderInstructionV3)
  | ReplaceOrderByClientId (v3 : NewOrderInstructionV3)
  | CancelOrderV2 (side : Side) (order_id : Nat)
  | CancelOrdersByClientIds (ids : List Nat)
  | SettleFunds
  deriving DecidableEq, Repr

/-- Instruction data, kept as the structured descriptor rather than its byte
encoding: the pack step is external serialization and none of the claims
inspect bytes. -/
inductive InstrData where
  | token (t : TokenInstruction)
  | market (m : MarketInstruction)
  | createAssociatedTokenAccount
  deriving DecidableEq, Repr

/-- Instruction descriptor (solana_program::instruction::Instruction). -/
structure Instruction where
  program_id : Pubkey
  accounts : List AccountMeta
  data : InstrData
  deriving DecidableEq, Repr

/-- Complete argument set of one cross-program call: the descriptor, the
ordered account-handle list, and the signer-seed sets. -/
structure Invocation where
  ix : Instruction
  accounts : List AccountInfo
  signers : List (List (List Nat))
  deriving DecidableEq, Repr

/-- Signer-seed set [amm_seed, [nonce]] built at each authority-backed call
site of invokers.rs (for example line 107). -/
def authority_signature_seeds (amm_seed : List Nat) (nonce : Nat) : List (List Nat) :=
  [amm_seed, [nonce]]

/-- Opaque failure reason of an invocation. -/
structure ProgramError where
  code : Nat
  deriving DecidableEq, Repr

/-- Modelled from the spec: the runtime primitive
solana_program::program::invoke_signed (external runtime, not under src).
It issues exactly one cross-program call, here represented by applying the
ambient-runtime oracle cpi once, and returns the external result unchanged;
the model additionally returns the list of issued calls so that call counts
are statable. -/
def invoke_signed (cpi : Invocation → Except ProgramError Unit)
    (ix : Instruction) (accounts : List AccountInfo)
    (signers : List (List (List Nat))) :
    Except ProgramError Unit × List Invocation :=
  (cpi ⟨ix, accounts, signers⟩, [⟨ix, accounts, signers⟩])

/-- Modelled from the spec: fixed address of the external account factory
(the associated-token-account program), an external collaborator constant. -/
def ATA_PROGRAM_ID : Pubkey := 900001

/-- Modelled from the spec: fixed address of the external ledger system
(the system program), an external collaborator constant. -/
def SYSTEM_PROGRAM_ID : Pubkey := 900002

/-- Modelled from the spec: the deterministic custody-account address bound
to (wallet, mint); the real derivation is a hash, modelled here by an
injective pairing. -/
def get_associated_token_address (wallet mint : Pubkey) : Pubkey :=
  Nat.pair wallet mint

/-- Modelled from the spec: the spl_associated_token_account crate builder
for account creation (external dependency, not under src).  Builds the
protocol-mandated descriptor for creating the custody account bound to
(wallet, mint). -/
def spl_associated_token_account.instruction.create_associated_token_account
    (funding_address wallet_address token_mint_address token_program_id : Pubkey) :
    Instruction :=
  { program_id := ATA_PROGRAM_ID
    accounts := [AccountMeta.new funding_address true,
      AccountMeta.new (get_associated_token_address wallet_address token_mint_address) false,
      AccountMeta.new_readonly wallet_address false,
      AccountMeta.new_readonly token_mint_address false,
      AccountMeta.new_readonly SYSTEM_PROGRAM_ID false,
      AccountMeta.new_readonly token_program_id false]
    data := InstrData.createAssociatedTokenAccount }

/-- Modelled from the spec: the spl_token crate builder for Transfer
(external dependency, not under src).  The authority meta is a signer
exactly when the multisig signer list is empty, and the signer pubkeys are
appended as readonly signers, as the crate does; the program-id validation
the crate performs belongs to the external collaborator and is omitted. -/
def spl_token.instruction.transfer
    (token_program_id source destination authority : Pubkey)
    (signer_pubkeys : List Pubkey) (amount : Nat) : Instruction :=
  { program_id := token_program_id
    accounts := [AccountMeta.new source false,
        AccountMeta.new destination false,
        AccountMeta.new_readonly authority signer_pubkeys.isEmpty] ++
      signer_pubkeys.map (fun k => AccountMeta.new_readonly k true)
    data := InstrData.token (TokenInstruction.Transfer amount) }

/-- Modelled from the spec: the spl_token crate builder for Burn (external
dependency, not under src). -/
def spl_token.instruction.burn
    (token_program_id account_pubkey mint_pubkey authority : Pubkey)
    (signer_pubkeys : List Pubkey) (amount : Nat) : Instruction :=
  { program_id := token_program_id
    accounts := [AccountMeta.new account_pubkey false,
        AccountMeta.new mint_pubkey false,
        AccountMeta.new_readonly authority signer_pubkeys.isEmpty] ++
      signer_pubkeys.map (fun k => AccountMeta.new_readonly k true)
    data := InstrData.token (TokenInstruction.Burn amount) }

/-- Modelled from the spec: the spl_token crate builder for MintTo (external
dependency, not under src). -/
def spl_token.instruction.mint_to
    (token_program_id mint_pubkey account_pubkey owner : Pubkey)
    (signer_pubkeys : List Pubkey) (amount : Nat) : Instruction :=
  { program_id := token_program_id
    accounts := [AccountMeta.new mint_pubkey false,
        AccountMeta.new account_pubkey false,
        AccountMeta.new_readonly owner signer_pubkeys.isEmpty] ++
      signer_pubkeys.map (fun k => AccountMeta.new_readonly k true)
    data := InstrData.token (TokenInstruction.MintTo amount) }

/-- Modelled from the spec: the spl_token crate builder for CloseAccount
(external dependency, not under src). -/
def spl_token.instruction.close_account
    (token_program_id account_pubkey destination_pubkey owner : Pubkey)
    (signer_pubkeys : List Pubkey) : Instruction :=
  { program_id := token_program_id
    accounts := [AccountMeta.new account_pubkey false,
        AccountMeta.new destination_pubkey false,
        AccountMeta.new_readonly owner signer_pubkeys.isEmpty] ++
      signer_pubkeys.map (fun k => AccountMeta.new_readonly k true)
    data := InstrData.token TokenInstruction.CloseAccount }

/-- Modelled from the spec: the spl_token crate builder for SetAuthority
(external dependency, not under src).  The new authority travels only inside
the instruction data, as an Option. -/
def spl_token.instruction.set_authority
    (token_program_id owned_pubkey : Pubkey) (new_authority : Option Pubkey)
    (authority_type : AuthorityType) (owner_pubkey : Pubkey)
    (signer_pubkeys : List Pubkey) : Instruction :=
  { program_id := token_program_id
    accounts := [AccountMeta.new owned_pubkey false,
        AccountMeta.new_readonly owner_pubkey signer_pubkeys.isEmpty] ++
      signer_pubkeys.map (fun k => AccountMeta.new_readonly k true)
    data := InstrData.token (TokenInstruction.SetAuthority authority_type new_authority) }

/-- Modelled from the spec: fixed address of the rent sysvar included by the
serum_dex descriptor builders (external collaborator constant). -/
def RENT_SYSVAR_ID : Pubkey := 900003

/-- Modelled from the spec: the serum_dex crate builder for InitOpenOrders
(external dependency, not under src). -/
def serum_dex.instruction.init_open_orders
    (program_id open_orders owner market : Pubkey)
    (market_authority : Option Pubkey) : Instruction :=
  { program_id := program_id
    accounts := [AccountMeta.new open_orders false,
        AccountMeta.new_readonly owner true,
        AccountMeta.new_readonly market false,
        AccountMeta.new_readonly RENT_SYSVAR_ID false] ++
      (match market_authority with
        | some key => [AccountMeta.new_readonly key true]
        | none => [])
    data := InstrData.market MarketInstruction.InitOpenOrders }

/-- Modelled from the spec: the serum_dex crate builder for CloseOpenOrders
(external dependency, not under src). -/
def serum_dex.instruction.close_open_orders
    (program_id open_orders owner destination market : Pubkey) : Instruction :=
  { program_id := program_id
    accounts := [AccountMeta.new open_orders false,
      AccountMeta.new_readonly owner true,
      AccountMeta.new destination false,
      AccountMeta.new_readonly market false]
    data := InstrData.market MarketInstruction.CloseOpenOrders }

/-- Modelled from the spec: the serum_dex crate builder for NewOrderV3
(external dependency, not under src).  It mirrors, account for account and
field for field, the in-repo ReplaceOrderByClientId builder
(invokers.rs lines 330 to 391), with operation code NewOrderV3; the spec
states the two operations share parameters and descriptor shape. -/
def serum_dex.instruction.new_order
    (market open_orders_account request_queue event_queue market_bids
      market_asks order_payer open_orders_account_owner coin_vault pc_vault
      spl_token_program_id rent_sysvar_id : Pubkey)
    (srm_account_referral : Option Pubkey) (program_id : Pubkey)
    (side : Side) (limit_price max_coin_qty : Nat) (order_type : OrderType)
    (client_order_id : Nat) (self_trade_behavior : SelfTradeBehavior)
    (limit : Nat) (max_native_pc_qty_including_fees : Nat) (max_ts : Int) :
    Instruction :=
  { program_id := program_id
    accounts := [AccountMeta.new market false,
        AccountMeta.new open_orders_account false,
        AccountMeta.new request_queue false,
        AccountMeta.new event_queue false,
        AccountMeta.new market_bids false,
        AccountMeta.new market_asks false,
        AccountMeta.new order_payer false,
        AccountMeta.new_readonly open_orders_account_owner true,
        AccountMeta.new coin_vault false,
        AccountMeta.new pc_vault false,
        AccountMeta.new_readonly spl_token_program_id false,
        AccountMeta.new_readonly rent_sysvar_id false] ++
      (match srm_account_referral with
        | some key => [AccountMeta.new_readonly key false]
        | none => [])
    data := InstrData.market (MarketInstruction.NewOrderV3
      { side := side
        limit_price := limit_price
        max_coin_qty := max_coin_qty
        order_type := order_type
        client_order_id := client_order_id
        self_trade_behavior := self_trade_behavior
        limit := limit
        max_native_pc_qty_including_fees := max_native_pc_qty_including_fees
        max_ts := max_ts }) }

/-- Modelled from the spec: the serum_dex crate builder for CancelOrderV2
(external dependency, not under src). -/
def serum_dex.instruction.cancel_order
    (program_id market market_bids market_asks open_orders_account
      open_orders_account_owner event_queue : Pubkey)
    (side : Side) (order_id : Nat) : Instruction :=
  { program_id := program_id
    accounts := [AccountMeta.new market false,
      AccountMeta.new market_bids false,
      AccountMeta.new market_asks false,
      AccountMeta.new open_orders_account false,
      AccountMeta.new_readonly open_orders_account_owner true,
      AccountMeta.new event_queue false]
    data := InstrData.market (MarketInstruction.CancelOrderV2 side order_id) }

/-- Fixed-size batch of exactly 8 client order ids, the Rust type [u64; 8]. -/
abbrev U64x8 := { l : List Nat // l.length = 8 }

/-- Modelled from the spec: the serum_dex crate builder for
CancelOrdersByClientIds (external dependency, not under src); the id batch
has exactly 8 slots by type. -/
def serum_dex.instruction.cancel_orders_by_client_order_ids
    (program_id market market_bids market_asks open_orders_account
      open_orders_account_owner event_queue : Pubkey)
    (client_order_ids : U64x8) : Instruction :=
  { program_id := program_id
    accounts := [AccountMeta.new market false,
      AccountMeta.new market_bids false,
      AccountMeta.new market_asks false,
      AccountMeta.new open_orders_account false,
      AccountMeta.new_readonly open_orders_account_owner true,
      AccountMeta.new event_queue false]
    data := InstrData.market
      (MarketInstruction.CancelOrdersByClientIds client_order_ids.val) }

/-- Modelled from the spec: the serum_dex crate builder for SettleFunds
(external dependency, not under src). -/
def serum_dex.instruction.settle_funds
    (program_id market token_program_id open_orders_account
      open_orders_account_owner coin_vault coin_wallet pc_vault
      pc_wallet : Pubkey) (referrer_pc_wallet : Option Pubkey)
    (vault_signer : Pubkey) : Instruction :=
  { program_id := program_id
    accounts := [AccountMeta.new market false,
        AccountMeta.new open_orders_account false,
        AccountMeta.new_readonly open_orders_account_owner true,
        AccountMeta.new coin_vault false,
        AccountMeta.new pc_vault false,
        AccountMeta.new coin_wallet false,
        AccountMeta.new pc_wallet false,
        AccountMeta.new_readonly vault_signer false,
        AccountMeta.new_readonly token_program_id false] ++
      (match referrer_pc_wallet with
        | some key => [AccountMeta.new key false]
        | none => [])
    data := InstrData.market MarketInstruction.SettleFunds }

/-- Modelled from the spec: venue-side processing of a
CancelOrdersByClientIds batch.  Ids with no matching live order owned by the
account are silently ignored (not an error); matching orders are removed.
The live set is modelled by the list of client ids of resting orders. -/
def venue_cancel_orders_by_client_ids (ids : List Nat)
    (live_client_ids : List Nat) : Except ProgramError (List Nat) :=
  Except.ok (live_client_ids.filter (fun c => !(ids.contains c)))

/-- Embedding of Invokers::create_ata_spl_token (invokers.rs lines 45 to 73):
the single invocation it dispatches.  The source passes an empty signer-seed
list (line 71). -/
def Invokers.create_ata_spl_token
    (associated_account funding_account wallet_account token_mint_account
      token_program_account ata_program_account system_program_account :
      AccountInfo) : Invocation :=
  { ix := spl_associated_token_account.instruction.create_associated_token_account
      funding_account.key wallet_account.key token_mint_account.key
      token_program_account.key
    accounts := [associated_account, funding_account, wallet_account,
      token_mint_account, token_program_account, ata_program_account,
      system_program_account]
    signers := [] }

/-- Embedding of Invokers::token_burn (invokers.rs lines 75 to 96): the
single invocation it dispatches, with an empty signer-seed list. -/
def Invokers.token_burn
    (token_program burn_account mint owner : AccountInfo)
    (burn_amount : Nat) : Invocation :=
  { ix := spl_token.instruction.burn token_program.key burn_account.key
      mint.key owner.key [] burn_amount
    accounts := [burn_account, mint, owner, token_program]
    signers := [] }

/-- Embedding of Invokers::token_close_with_authority (invokers.rs lines 99
to 122): the single invocation it dispatches, signed with
[amm_seed, [nonce]]. -/
def Invokers.token_close_with_authority
    (token_program close_account destination_account authority : AccountInfo)
    (amm_seed : List Nat) (nonce : Nat) : Invocation :=
  { ix := spl_token.instruction.close_account token_program.key
      close_account.key destination_account.key authority.key []
    accounts := [close_account, destination_account, authority, token_program]
    signers := [authority_signature_seeds amm_seed nonce] }

/-- Embedding of Invokers::token_burn_with_authority (invokers.rs lines 125
to 150). -/
def Invokers.token_burn_with_authority
    (token_program burn_account mint authority : AccountInfo)
    (amm_seed : List Nat) (nonce : Nat) (burn_amount : Nat) : Invocation :=
  { ix := spl_token.instruction.burn token_program.key burn_account.key
      mint.key authority.key [] burn_amount
    accounts := [burn_account, mint, authority, token_program]
    signers := [authority_signature_seeds amm_seed nonce] }

/-- Embedding of Invokers::token_mint_to (invokers.rs lines 153 to 178). -/
def Invokers.token_mint_to
    (token_program mint destination authority : AccountInfo)
    (amm_seed : List Nat) (nonce : Nat) (amount : Nat) : Invocation :=
  { ix := spl_token.instruction.mint_to token_program.key mint.key
      destination.key authority.key [] amount
    accounts := [mint, destination, authority, token_program]
    signers := [authority_signature_seeds amm_seed nonce] }

/-- Embedding of Invokers::token_transfer (invokers.rs lines 181 to 201):
the single invocation it dispatches, with an empty signer-seed list. -/
def Invokers.token_transfer
    (token_program source destination owner : AccountInfo)
    (deposit_amount : Nat) : Invocation :=
  { ix := spl_token.instruction.transfer token_program.key source.key
      destination.key owner.key [] deposit_amount
    accounts := [source, destination, owner, token_program]
    signers := [] }

/-- Embedding of Invokers::token_transfer_with_authority (invokers.rs lines
222 to 246). -/
def Invokers.token_transfer_with_authority
    (token_program source destination authority : AccountInfo)
    (amm_seed : List Nat) (nonce : Nat) (amount : Nat) : Invocation :=
  { ix := spl_token.instruction.transfer token_program.key source.key
      destination.key authority.key [] amount
    accounts := [source, destination, authority, token_program]
    signers := [authority_signature_seeds amm_seed nonce] }

/-- Embedding of Invokers::token_set_authority (invokers.rs lines 248 to
268): three dispatched accounts; the new authority key enters only the
instruction data, wrapped in Some. -/
def Invokers.token_set_authority
    (token_program account authority new_authority : AccountInfo)
    (amm_seed : List Nat) (authority_nonce : Nat)
    (authority_type : AuthorityType) : Invocation :=
  { ix := spl_token.instruction.set_authority token_program.key account.key
      (some new_authority.key) authority_type authority.key []
    accounts := [account, authority, token_program]
    signers := [authority_signature_seeds amm_seed authority_nonce] }

/-- Embedding of Invokers::invoke_dex_init_open_orders (invokers.rs lines
271 to 299). -/
def Invokers.invoke_dex_init_open_orders
    (dex_program open_orders open_orders_owner market rent_sysvar : AccountInfo)
    (amm_seed : List Nat) (nonce : Nat) : Invocation :=
  { ix := serum_dex.instruction.init_open_orders dex_program.key
      open_orders.key open_orders_owner.key market.key none
    accounts := [dex_program, open_orders, open_orders_owner, market,
      rent_sysvar]
    signers := [authority_signature_seeds amm_seed nonce] }

/-- Embedding of Invokers::invoke_dex_close_open_orders (invokers.rs lines
301 to 328). -/
def Invokers.invoke_dex_close_open_orders
    (dex_program open_orders open_orders_owner destination market : AccountInfo)
    (amm_seed : List Nat) (nonce : Nat) : Invocation :=
  { ix := serum_dex.instruction.close_open_orders dex_program.key
      open_orders.key open_orders_owner.key destination.key market.key
    accounts := [dex_program, open_orders, open_orders_owner, destination,
      market]
    signers := [authority_signature_seeds amm_seed nonce] }

/-- Embedding of Invokers::replace_order_by_client_id (invokers.rs lines 330
to 391), the builder of the ReplaceOrderByClientId descriptor: twelve fixed
account metas, the optional referral meta pushed last when present.  The
source wraps the result in Ok unconditionally. -/
def Invokers.replace_order_by_client_id
    (market open_orders_account request_queue event_queue market_bids
      market_asks order_payer open_orders_account_owner coin_vault pc_vault
      spl_token_program_id rent_sysvar_id : Pubkey)
    (srm_account_referral : Option Pubkey) (program_id : Pubkey)
    (side : Side) (limit_price max_coin_qty : Nat) (order_type : OrderType)
    (client_order_id : Nat) (self_trade_behavior : SelfTradeBehavior)
    (limit : Nat) (max_native_pc_qty_including_fees : Nat) (max_ts : Int) :
    Instruction :=
  { program_id := program_id
    accounts := [AccountMeta.new market false,
        AccountMeta.new open_orders_account false,
        AccountMeta.new request_queue false,
        AccountMeta.new event_queue false,
        AccountMeta.new market_bids false,
        AccountMeta.new market_asks false,
        AccountMeta.new order_payer false,
        AccountMeta.new_readonly open_orders_account_owner true,
        AccountMeta.new coin_vault false,
        AccountMeta.new pc_vault false,
        AccountMeta.new_readonly spl_token_program_id false,
        AccountMeta.new_readonly rent_sysvar_id false] ++
      (match srm_account_referral with
        | some key => [AccountMeta.new_readonly key false]
        | none => [])
    data := InstrData.market (MarketInstruction.ReplaceOrderByClientId
      { side := side
        limit_price := limit_price
        max_coin_qty := max_coin_qty
        order_type := order_type
        client_order_id := client_order_id
        self_trade_behavior := self_trade_behavior
        limit := limit
        max_native_pc_qty_including_fees := max_native_pc_qty_including_fees
        max_ts := max_ts }) }

/-- Embedding of Invokers::invoke_dex_replace_order_by_client_id
(invokers.rs lines 393 to 473): thirteen fixed dispatched accounts plus the
optional referral appended last; the descriptor is built with
self_trade_behavior hard-coded to CancelProvide (line 447) and max_ts
hard-coded to i64::MAX (line 450). -/
def Invokers.invoke_dex_replace_order_by_client_id
    (dex_program market open_orders req_q event_q bids asks payer
      open_orders_owner coin_vault pc_vault token_program rent_account :
      AccountInfo)
    (srm_account_referral : Option AccountInfo)
    (amm_seed : List Nat) (nonce : Nat)
    (side : Side) (limit_price max_coin_qty
      max_native_pc_qty_including_fees : Nat) (order_type : OrderType)
    (client_order_id : Nat) (limit : Nat) : Invocation :=
  { ix := Invokers.replace_order_by_client_id market.key open_orders.key
      req_q.key event_q.key bids.key asks.key payer.key
      open_orders_owner.key coin_vault.key pc_vault.key token_program.key
      rent_account.key (srm_account_referral.map AccountInfo.key)
      dex_program.key side limit_price max_coin_qty order_type
      client_order_id SelfTradeBehavior.CancelProvide limit
      max_native_pc_qty_including_fees i64_MAX
    accounts := [dex_program, market, open_orders, req_q, event_q, bids,
        asks, payer, open_orders_owner, coin_vault, pc_vault, token_program,
        rent_account] ++
      (match srm_account_referral with
        | some srm_account => [srm_account]
        | none => [])
    signers := [authority_signature_seeds amm_seed nonce] }

/-- Embedding of Invokers::invoke_dex_new_order_v3 (invokers.rs lines 509 to
589): thirteen fixed dispatched accounts plus the optional referral appended
last; the descriptor is built with self_trade_behavior hard-coded to
CancelProvide (line 563) and max_ts hard-coded to i64::MAX (line 566). -/
def Invokers.invoke_dex_new_order_v3
    (dex_program market open_orders req_q event_q bids asks payer
      open_orders_owner coin_vault pc_vault token_program rent_account :
      AccountInfo)
    (srm_account_referral : Option AccountInfo)
    (amm_seed : List Nat) (nonce : Nat)
    (side : Side) (limit_price max_coin_qty
      max_native_pc_qty_including_fees : Nat) (order_type : OrderType)
    (client_order_id : Nat) (limit : Nat) : Invocation :=
  { ix := serum_dex.instruction.new_order market.key open_orders.key
      req_q.key event_q.key bids.key asks.key payer.key
      open_orders_owner.key coin_vault.key pc_vault.key token_program.key
      rent_account.key (srm_account_referral.map AccountInfo.key)
      dex_program.key side limit_price max_coin_qty order_type
      client_order_id SelfTradeBehavior.CancelProvide limit
      max_native_pc_qty_including_fees i64_MAX
    accounts := [dex_program, market, open_orders, req_q, event_q, bids,
        asks, payer, open_orders_owner, coin_vault, pc_vault, token_program,
        rent_account] ++
      (match srm_account_referral with
        | some srm_account => [srm_account]
        | none => [])
    signers := [authority_signature_seeds amm_seed nonce] }

/-- Embedding of Invokers::invoke_dex_cancel_order_v2 (invokers.rs lines 592
to 630). -/
def Invokers.invoke_dex_cancel_order_v2
    (dex_program market bids asks open_orders open_orders_owner event_q :
      AccountInfo)
    (amm_seed : List Nat) (nonce : Nat)
    (side : Side) (order_id : Nat) : Invocation :=
  { ix := serum_dex.instruction.cancel_order dex_program.key market.key
      bids.key asks.key open_orders.key open_orders_owner.key event_q.key
      side order_id
    accounts := [dex_program, market, bids, asks, open_orders,
      open_orders_owner, event_q]
    signers := [authority_signature_seeds amm_seed nonce] }

/-- Embedding of Invokers::invoke_dex_cancel_orders_by_client_order_ids
(invokers.rs lines 633 to 669): the id batch has exactly 8 slots by type,
as the Rust parameter has type [u64; 8]. -/
def Invokers.invoke_dex_cancel_orders_by_client_order_ids
    (dex_program market bids asks open_orders open_orders_owner event_q :
      AccountInfo)
    (amm_seed : List Nat) (nonce : Nat)
    (client_order_ids : U64x8) : Invocation :=
  { ix := serum_dex.instruction.cancel_orders_by_client_order_ids
      dex_program.key market.key bids.key asks.key open_orders.key
      open_orders_owner.key event_q.key client_order_ids
    accounts := [dex_program, market, bids, asks, open_orders,
      open_orders_owner, event_q]
    signers := [authority_signature_seeds amm_seed nonce] }

/-- Embedding of Invokers::invoke_dex_settle_funds (invokers.rs lines 695 to
748): ten fixed dispatched accounts, the optional referrer appended last
when present. -/
def Invokers.invoke_dex_settle_funds
    (dex_program market open_orders owner coin_vault pc_vault coin_wallet
      pc_wallet vault_signer spl_token_program : AccountInfo)
    (referrer_pc_wallet : Option AccountInfo)
    (amm_seed : List Nat) (nonce : Nat) : Invocation :=
  { ix := serum_dex.instruction.settle_funds dex_program.key market.key
      spl_token_program.key open_orders.key owner.key coin_vault.key
      coin_wallet.key pc_vault.key pc_wallet.key
      (referrer_pc_wallet.map AccountInfo.key) vault_signer.key
    accounts := [dex_program, market, open_orders, owner, coin_vault,
        pc_vault, coin_wallet, pc_wallet, vault_signer, spl_token_program] ++
      (match referrer_pc_wallet with
        | some referrer_pc_account => [referrer_pc_account]
        | none => [])
    signers := [authority_signature_seeds amm_seed nonce] }

/-- Run form of Invokers::invoke_dex_settle_funds: the source ends by
handing the built descriptor, account list and signer seeds to invoke_signed
exactly once (invokers.rs line 747); the oracle cpi stands for the ambient
runtime. -/
def Invokers.invoke_dex_settle_funds_run
    (cpi : Invocation → Except ProgramError Unit)
    (dex_program market open_orders owner coin_vault pc_vault coin_wallet
      pc_wallet vault_signer spl_token_program : AccountInfo)
    (referrer_pc_wallet : Option AccountInfo)
    (amm_seed : List Nat) (nonce : Nat) :
    Except ProgramError Unit × List Invocation :=
  invoke_signed cpi
    (Invokers.invoke_dex_settle_funds dex_program market open_orders owner
      coin_vault pc_vault coin_wallet pc_wallet vault_signer
      spl_token_program referrer_pc_wallet amm_seed nonce).ix
    (Invokers.invoke_dex_settle_funds dex_program market open_orders owner
      coin_vault pc_vault coin_wallet pc_wallet vault_signer
      spl_token_program referrer_pc_wallet amm_seed nonce).accounts
    (Invokers.invoke_dex_settle_funds dex_program market open_orders owner
      coin_vault pc_vault coin_wallet pc_wallet vault_signer
      spl_token_program referrer_pc_wallet amm_seed nonce).signers

/-- Embedding of process_instruction (entrypoint.rs lines 36 to 49).  The
Processor lives outside src and is taken as a parameter; printing the error
before returning it is a log effect dropped in a pure model, and the error
itself is returned unchanged. -/
def process_instruction
    (process : Pubkey → List AccountInfo → List Nat →
      Except ProgramError Unit)
    (program_id : Pubkey) (accounts : List AccountInfo)
    (instruction_data : List Nat) : Except ProgramError Unit :=
  match process program_id accounts instruction_data with
  | Except.error e => Except.error e
  | Except.ok _ => Except.ok ()

/-- Claim C1: invoke_dex_settle_funds dispatches exactly 10 accounts in the
fixed relative order dex_program, market, open_orders, owner, coin_vault,
pc_vault, coin_wallet, pc_wallet, vault_signer, spl_token_program when the
optional referrer is absent; when the referrer is present the list has
exactly 11 entries, with the referrer appended last and the first 10
entries unchanged. -/
theorem c1_settle_funds_account_list
    (dex_program market open_orders owner coin_vault pc_vault coin_wallet
      pc_wallet vault_signer spl_token_program : AccountInfo)
    (amm_seed : List Nat) (nonce : Nat) :
    ((Invokers.invoke_dex_settle_funds dex_program market open_orders owner
        coin_vault pc_vault coin_wallet pc_wallet vault_signer
        spl_token_program none amm_seed nonce).accounts
      = [dex_program, market, open_orders, owner, coin_vault, pc_vault,
        coin_wallet, pc_wallet, vault_signer, spl_token_program]
     ∧ (Invokers.invoke_dex_settle_funds dex_program market open_orders
        owner coin_vault pc_vault coin_wallet pc_wallet vault_signer
        spl_token_program none amm_seed nonce).accounts.length = 10)
    ∧ ∀ referrer : AccountInfo,
      ((Invokers.invoke_dex_settle_funds dex_program market open_orders
          owner coin_vault pc_vault coin_wallet pc_wallet vault_signer
          spl_token_program (some referrer) amm_seed nonce).accounts
        = [dex_program, market, open_orders, owner, coin_vault, pc_vault,
          coin_wallet, pc_wallet, vault_signer, spl_token_program] ++ [referrer]
       ∧ (Invokers.invoke_dex_settle_funds dex_program market open_orders
          owner coin_vault pc_vault coin_wallet pc_wallet vault_signer
          spl_token_program (some referrer) amm_seed nonce).accounts.length = 11) := by
  exact ⟨⟨rfl, rfl⟩, fun referrer => ⟨rfl, rfl⟩⟩

/-- Claim C2: for invoke_dex_new_order_v3, invoke_dex_replace_order_by_client_id
and invoke_dex_settle_funds, the dispatched account list gains exactly one
entry, appended last, exactly when the optional account is present; when it
is absent the list is one entry shorter and no placeholder occupies its
slot, the absent-case list being exactly the present-case list without its
final entry. -/
theorem c2_optional_account_appended
    (dex_program market open_orders req_q event_q bids asks payer
      open_orders_owner coin_vault pc_vault token_program rent_account
      owner coin_wallet pc_wallet vault_signer spl_token_program referral
      referrer : AccountInfo)
    (amm_seed : List Nat) (nonce : Nat) (side : Side)
    (limit_price max_coin_qty max_native_pc_qty_including_fees : Nat)
    (order_type : OrderType) (client_order_id : Nat) (limit : Nat) :
    ((Invokers.invoke_dex_new_order_v3 dex_program market open_orders req_q
        event_q bids asks payer open_orders_owner coin_vault pc_vault
        token_program rent_account (some referral) amm_seed nonce side
        limit_price max_coin_qty max_native_pc_qty_including_fees order_type
        client_order_id limit).accounts
      = (Invokers.invoke_dex_new_order_v3 dex_program market open_orders
          req_q event_q bids asks payer open_orders_owner coin_vault
          pc_vault token_program rent_account none amm_seed nonce side
          limit_price max_coin_qty max_native_pc_qty_including_fees
          order_type client_order_id limit).accounts ++ [referral]
     ∧ (Invokers.invoke_dex_new_order_v3 dex_program market open_orders
          req_q event_q bids asks payer open_orders_owner coin_vault
          pc_vault token_program rent_account none amm_seed nonce side
          limit_price max_coin_qty max_native_pc_qty_including_fees
          order_type client_order_id limit).accounts.length + 1
        = (Invokers.invoke_dex_new_order_v3 dex_program market open_orders
          req_q event_q bids asks payer open_orders_owner coin_vault
          pc_vault token_program rent_account (some referral) amm_seed nonce
          side limit_price max_coin_qty max_native_pc_qty_including_fees
          order_type client_order_id limit).accounts.length)
    ∧ ((Invokers.invoke_dex_replace_order_by_client_id dex_program market
        open_orders req_q event_q bids asks payer open_orders_owner
        coin_vault pc_vault token_program rent_account (some referral)
        amm_seed nonce side limit_price max_coin_qty
        max_native_pc_qty_including_fees order_type client_order_id
        limit).accounts
      = (Invokers.invoke_dex_replace_order_by_client_id dex_program market
          open_orders req_q event_q bids asks payer open_orders_owner
          coin_vault pc_vault token_program rent_account none amm_seed nonce
          side limit_price max_coin_qty max_native_pc_qty_including_fees
          order_type client_order_id limit).accounts ++ [referral]
     ∧ (Invokers.invoke_dex_replace_order_by_client_id dex_program market
          open_orders req_q event_q bids asks payer open_orders_owner
          coin_vault pc_vault token_program rent_account none amm_seed nonce
          side limit_price max_coin_qty max_native_pc_qty_including_fees
          order_type client_order_id limit).accounts.length + 1
        = (Invokers.invoke_dex_replace_order_by_client_id dex_program market
          open_orders req_q event_q bids asks payer open_orders_owner
          coin_vault pc_vault token_program rent_account (some referral)
          amm_seed nonce side limit_price max_coin_qty
          max_native_pc_qty_including_fees order_type client_order_id
          limit).accounts.length)
    ∧ ((Invokers.invoke_dex_settle_funds dex_program market open_orders
        owner coin_vault pc_vault coin_wallet pc_wallet vault_signer
        spl_token_program (some referrer) amm_seed nonce).accounts
      = (Invokers.invoke_dex_settle_funds dex_program market open_orders
          owner coin_vault pc_vault coin_wallet pc_wallet vault_signer
          spl_token_program none amm_seed nonce).accounts ++ [referrer]
     ∧ (Invokers.invoke_dex_settle_funds dex_program market open_orders
          owner coin_vault pc_vault coin_wallet pc_wallet vault_signer
          spl_token_program none amm_seed nonce).accounts.length + 1
        = (Invokers.invoke_dex_settle_funds dex_program market open_orders
          owner coin_vault pc_vault coin_wallet pc_wallet vault_signer
          spl_token_program (some referrer) amm_seed nonce).accounts.length) := by
  exact ⟨⟨rfl, rfl⟩, ⟨rfl, rfl⟩, ⟨rfl, rfl⟩⟩

/-- Claim C3: for every caller parameter choice, both
invoke_dex_new_order_v3 and invoke_dex_replace_order_by_client_id build an
order descriptor whose self_trade_behavior field is fixed to CancelProvide
and whose max_ts field is fixed to the maximum i64 sentinel; neither field
is a parameter of the two invokers. -/
theorem c3_fixed_self_trade_and_expiry
    (dex_program market open_orders req_q event_q bids asks payer
      open_orders_owner coin_vault pc_vault token_program rent_account :
      AccountInfo)
    (srm_account_referral : Option AccountInfo)
    (amm_seed : List Nat) (nonce : Nat) (side : Side)
    (limit_price max_coin_qty max_native_pc_qty_including_fees : Nat)
    (order_type : OrderType) (client_order_id : Nat) (limit : Nat) :
    (Invokers.invoke_dex_new_order_v3 dex_program market open_orders req_q
        event_q bids asks payer open_orders_owner coin_vault pc_vault
        token_program rent_account srm_account_referral amm_seed nonce side
        limit_price max_coin_qty max_native_pc_qty_including_fees order_type
        client_order_id limit).ix.data
      = InstrData.market (MarketInstruction.NewOrderV3
        { side := side
          limit_price := limit_price
          max_coin_qty := max_coin_qty
          order_type := order_type
          client_order_id := client_order_id
          self_trade_behavior := SelfTradeBehavior.CancelProvide
          limit := limit
          max_native_pc_qty_including_fees := max_native_pc_qty_including_fees
          max_ts := i64_MAX })
    ∧ (Invokers.invoke_dex_replace_order_by_client_id dex_program market
        open_orders req_q event_q bids asks payer open_orders_owner
        coin_vault pc_vault token_program rent_account srm_account_referral
        amm_seed nonce side limit_price max_coin_qty
        max_native_pc_qty_including_fees order_type client_order_id
        limit).ix.data
      = InstrData.market (MarketInstruction.ReplaceOrderByClientId
        { side := side
          limit_price := limit_price
          max_coin_qty := max_coin_qty
          order_type := order_type
          client_order_id := client_order_id
          self_trade_behavior := SelfTradeBehavior.CancelProvide
          limit := limit
          max_native_pc_qty_including_fees := max_native_pc_qty_including_fees
          max_ts := i64_MAX }) := by
  exact ⟨rfl, rfl⟩

/-- Claim C4: on identical parameter tuples,
invoke_dex_replace_order_by_client_id builds an invocation with the same
dispatched account list, the same signer seeds, the same descriptor
program id and descriptor account metas, and the same order payload as
invoke_dex_new_order_v3, the two descriptors differing only in the
operation code (ReplaceOrderByClientId versus NewOrderV3). -/
theorem c4_replace_refines_new_order
    (dex_program market open_orders req_q event_q bids asks payer
      open_orders_owner coin_vault pc_vault token_program rent_account :
      AccountInfo)
    (srm_account_referral : Option AccountInfo)
    (amm_seed : List Nat) (nonce : Nat) (side : Side)
    (limit_price max_coin_qty max_native_pc_qty_including_fees : Nat)
    (order_type : OrderType) (client_order_id : Nat) (limit : Nat) :
    let r := Invokers.invoke_dex_replace_order_by_client_id dex_program
      market open_orders req_q event_q bids asks payer open_orders_owner
      coin_vault pc_vault token_program rent_account srm_account_referral
      amm_seed nonce side limit_price max_coin_qty
      max_native_pc_qty_including_fees order_type client_order_id limit
    let n := Invokers.invoke_dex_new_order_v3 dex_program market open_orders
      req_q event_q bids asks payer open_orders_owner coin_vault pc_vault
      token_program rent_account srm_account_referral amm_seed nonce side
      limit_price max_coin_qty max_native_pc_qty_including_fees order_type
      client_order_id limit
    r.accounts = n.accounts
    ∧ r.signers = n.signers
    ∧ r.ix.program_id = n.ix.program_id
    ∧ r.ix.accounts = n.ix.accounts
    ∧ r.ix.data = InstrData.market (MarketInstruction.ReplaceOrderByClientId
        { side := side
          limit_price := limit_price
          max_coin_qty := max_coin_qty
          order_type := order_type
          client_order_id := client_order_id
          self_trade_behavior := SelfTradeBehavior.CancelProvide
          limit := limit
          max_native_pc_qty_including_fees := max_native_pc_qty_including_fees
          max_ts := i64_MAX })
    ∧ n.ix.data = InstrData.market (MarketInstruction.NewOrderV3
        { side := side
          limit_price := limit_price
          max_coin_qty := max_coin_qty
          order_type := order_type
          client_order_id := client_order_id
          self_trade_behavior := SelfTradeBehavior.CancelProvide
          limit := limit
          max_native_pc_qty_including_fees := max_native_pc_qty_including_fees
          max_ts := i64_MAX }) := by
  exact ⟨rfl, rfl, rfl, rfl, rfl, rfl⟩

/-- Claim C5: the batch-cancel invoker accepts exactly 8 client order ids,
enforced by the [u64; 8] parameter type, and its descriptor carries exactly
those 8 id slots; the venue-side processing of the batch never fails, and
in particular when no supplied id matches a live order it succeeds and
leaves the live order set unchanged. -/
theorem c5_cancel_orders_eight_ids
    (dex_program market bids asks open_orders open_orders_owner event_q :
      AccountInfo)
    (amm_seed : List Nat) (nonce : Nat) (client_order_ids : U64x8)
    (live_client_ids : List Nat) :
    ((Invokers.invoke_dex_cancel_orders_by_client_order_ids dex_program
        market bids asks open_orders open_orders_owner event_q amm_seed
        nonce client_order_ids).ix.data
      = InstrData.market
        (MarketInstruction.CancelOrdersByClientIds client_order_ids.val))
    ∧ client_order_ids.val.length = 8
    ∧ (∃ remaining, venue_cancel_orders_by_client_ids client_order_ids.val
        live_client_ids = Except.ok remaining)
    ∧ ((∀ c ∈ live_client_ids, client_order_ids.val.contains c = false) →
        venue_cancel_orders_by_client_ids client_order_ids.val
          live_client_ids = Except.ok live_client_ids) := by
  refine ⟨rfl, client_order_ids.property, ⟨_, rfl⟩, fun h => ?_⟩
  unfold venue_cancel_orders_by_client_ids
  congr 1
  exact List.filter_eq_self.mpr (fun c hc => by simpa using h c hc)

/-- Claim C5 witness: a batch of 8 ids none of which matches a live order is
processed without error and leaves the live set unchanged. -/
theorem c5_cancel_orders_eight_ids_witness :
    venue_cancel_orders_by_client_ids [1, 2, 3, 4, 5, 6, 7, 8] [9, 10]
      = Except.ok [9, 10] :=
  (c5_cancel_orders_eight_ids ⟨0⟩ ⟨1⟩ ⟨2⟩ ⟨3⟩ ⟨4⟩ ⟨5⟩ ⟨6⟩ [0] 0
    ⟨[1, 2, 3, 4, 5, 6, 7, 8], rfl⟩ [9, 10]).2.2.2 (by decide)

/-- Claim C6: every token-custody invocation carries either no signer-seed
set at all (token_transfer, token_burn, create_ata_spl_token) or exactly
one signer-seed set equal to [amm_seed, [nonce]] (the with_authority
operations, token_mint_to and token_set_authority); no operation attaches
more than one seed set and none mixes the two forms. -/
theorem c6_signer_seed_discipline
    (token_program source destination owner authority mint burn_account
      close_account destination_account account new_authority
      associated_account funding_account wallet_account token_mint_account
      token_program_account ata_program_account system_program_account :
      AccountInfo)
    (amm_seed : List Nat) (nonce : Nat) (amount : Nat)
    (authority_type : AuthorityType) :
    (Invokers.token_transfer token_program source destination owner
        amount).signers = []
    ∧ (Invokers.token_burn token_program burn_account mint owner
        amount).signers = []
    ∧ (Invokers.create_ata_spl_token associated_account funding_account
        wallet_account token_mint_account token_program_account
        ata_program_account system_program_account).signers = []
    ∧ (Invokers.token_transfer_with_authority token_program source
        destination authority amm_seed nonce amount).signers
      = [[amm_seed, [nonce]]]
    ∧ (Invokers.token_burn_with_authority token_program burn_account mint
        authority amm_seed nonce amount).signers = [[amm_seed, [nonce]]]
    ∧ (Invokers.token_mint_to token_program mint destination authority
        amm_seed nonce amount).signers = [[amm_seed, [nonce]]]
    ∧ (Invokers.token_close_with_authority token_program close_account
        destination_account authority amm_seed nonce).signers
      = [[amm_seed, [nonce]]]
    ∧ (Invokers.token_set_authority token_program account authority
        new_authority amm_seed nonce authority_type).signers
      = [[amm_seed, [nonce]]] := by
  exact ⟨rfl, rfl, rfl, rfl, rfl, rfl, rfl, rfl⟩

/-- Claim C7: the signer-seed construction [amm_seed, [nonce]] is a pure
deterministic function of its inputs: two derivations from equal
(seed, nonce) pairs produce equal seed sets, and two authority-backed
invocations built from equal pairs and equal remaining arguments are
identical. -/
theorem c7_derive_deterministic
    (amm_seed1 amm_seed2 : List Nat) (nonce1 nonce2 : Nat)
    (hs : amm_seed1 = amm_seed2) (hn : nonce1 = nonce2)
    (token_program close_account destination_account authority : AccountInfo) :
    authority_signature_seeds amm_seed1 nonce1
      = authority_signature_seeds amm_seed2 nonce2
    ∧ Invokers.token_close_with_authority token_program close_account
        destination_account authority amm_seed1 nonce1
      = Invokers.token_close_with_authority token_program close_account
        destination_account authority amm_seed2 nonce2 := by
  subst hs
  subst hn
  exact ⟨rfl, rfl⟩

/-- Claim C7 witness: determinism instantiated at a concrete seed and
nonce. -/
theorem c7_derive_deterministic_witness :
    authority_signature_seeds [7, 7] 255 = authority_signature_seeds [7, 7] 255
    ∧ Invokers.token_close_with_authority ⟨1⟩ ⟨2⟩ ⟨3⟩ ⟨4⟩ [7, 7] 255
      = Invokers.token_close_with_authority ⟨1⟩ ⟨2⟩ ⟨3⟩ ⟨4⟩ [7, 7] 255 :=
  c7_derive_deterministic [7, 7] [7, 7] 255 255 rfl rfl ⟨1⟩ ⟨2⟩ ⟨3⟩ ⟨4⟩

/-- Claim C8: every token-custody operation dispatches its accounts in one
fixed order, independent of the numeric arguments: burn as [burn_account,
mint, owner or authority, token_program], mint_to as [mint, destination,
authority, token_program], transfer as [source, destination, owner or
authority, token_program], close as [close_account, destination, authority,
token_program]. -/
theorem c8_token_custody_fixed_account_order
    (token_program burn_account mint owner authority source destination
      close_account destination_account : AccountInfo)
    (amm_seed : List Nat) (nonce : Nat) (amount : Nat) :
    (Invokers.token_burn token_program burn_account mint owner
        amount).accounts = [burn_account, mint, owner, token_program]
    ∧ (Invokers.token_burn_with_authority token_program burn_account mint
        authority amm_seed nonce amount).accounts
      = [burn_account, mint, authority, token_program]
    ∧ (Invokers.token_mint_to token_program mint destination authority
        amm_seed nonce amount).accounts
      = [mint, destination, authority, token_program]
    ∧ (Invokers.token_transfer token_program source destination owner
        amount).accounts = [source, destination, owner, token_program]
    ∧ (Invokers.token_transfer_with_authority token_program source
        destination authority amm_seed nonce amount).accounts
      = [source, destination, authority, token_program]
    ∧ (Invokers.token_close_with_authority token_program close_account
        destination_account authority amm_seed nonce).accounts
      = [close_account, destination_account, authority, token_program] := by
  exact ⟨rfl, rfl, rfl, rfl, rfl, rfl⟩

/-- Claim C9: the dispatch primitive issues exactly one cross-program call
and returns its result unchanged; the settle-funds operation runs as
exactly that one call on its built invocation; and the program entry point
returns the processor result unchanged, with no retry and no
reinterpretation of the failure reason. -/
theorem c9_single_call_and_unchanged_propagation :
    (∀ (cpi : Invocation → Except ProgramError Unit) (inv : Invocation),
      invoke_signed cpi inv.ix inv.accounts inv.signers = (cpi inv, [inv]))
    ∧ (∀ (cpi : Invocation → Except ProgramError Unit)
        (dex_program market open_orders owner coin_vault pc_vault
          coin_wallet pc_wallet vault_signer spl_token_program : AccountInfo)
        (referrer_pc_wallet : Option AccountInfo)
        (amm_seed : List Nat) (nonce : Nat),
        Invokers.invoke_dex_settle_funds_run cpi dex_program market
          open_orders owner coin_vault pc_vault coin_wallet pc_wallet
          vault_signer spl_token_program referrer_pc_wallet amm_seed nonce
        = (cpi (Invokers.invoke_dex_settle_funds dex_program market
            open_orders owner coin_vault pc_vault coin_wallet pc_wallet
            vault_signer spl_token_program referrer_pc_wallet amm_seed
            nonce),
          [Invokers.invoke_dex_settle_funds dex_program market open_orders
            owner coin_vault pc_vault coin_wallet pc_wallet vault_signer
            spl_token_program referrer_pc_wallet amm_seed nonce]))
    ∧ (∀ (process : Pubkey → List AccountInfo → List Nat →
          Except ProgramError Unit)
        (program_id : Pubkey) (accounts : List AccountInfo)
        (instruction_data : List Nat),
        process_instruction process program_id accounts instruction_data
          = process program_id accounts instruction_data) := by
  refine ⟨fun cpi inv => rfl,
    fun cpi a b c d e f g h i j k l m => rfl, ?_⟩
  intro process program_id accounts instruction_data
  unfold process_instruction
  cases hp : process program_id accounts instruction_data with
  | error e => rfl
  | ok u =>
    cases u
    rfl

/-- Claim C10: token_set_authority dispatches exactly the three accounts
[account, authority, token_program]; the dispatched list does not depend on
the new-authority argument, which travels only inside the instruction data
and is always encoded as present (Some), so the layer can never clear an
authority role. -/
theorem c10_set_authority_account_list
    (token_program account authority new_authority : AccountInfo)
    (amm_seed : List Nat) (authority_nonce : Nat)
    (authority_type : AuthorityType) :
    (Invokers.token_set_authority token_program account authority
        new_authority amm_seed authority_nonce authority_type).accounts
      = [account, authority, token_program]
    ∧ (Invokers.token_set_authority token_program account authority
        new_authority amm_seed authority_nonce authority_type).accounts.length
      = 3
    ∧ (∀ other : AccountInfo,
        (Invokers.token_set_authority token_program account authority other
          amm_seed authority_nonce authority_type).accounts
        = (Invokers.token_set_authority token_program account authority
          new_authority amm_seed authority_nonce authority_type).accounts)
    ∧ (Invokers.token_set_authority token_program account authority
        new_authority amm_seed authority_nonce authority_type).ix.data
      = InstrData.token (TokenInstruction.SetAuthority authority_type
        (some new_authority.key)) := by
  exact ⟨rfl, rfl, fun other => rfl, rfl⟩
